import Mathlib

/-!
Shallow embedding of `src/test-kimi-py.py`, a single-pass diagnostic script:
it loads a `.env` file into the process environment, resolves the
`NVIDIA_API_KEY_KIMI` credential, dispatches one HTTP POST to a fixed NVIDIA
endpoint and renders the response either as streamed lines or as one parsed
JSON value.

The script's own code is embedded as pure Lean functions.  Effects of the
outside world (the `.env` file contents, the pre-existing process
environment, and what the `requests` library returns or raises for the one
POST) are inputs, collected in a `World`.  The observable behaviour of a run
(lines printed to stdout, exit status, the request dispatched, if any) is the
output, a `ProgResult`.
-/

/-! ### Python string primitives

Lean's builtin `String.trim`/`String.splitOn` do not reduce in the kernel, so
the Python string operations used by the script (`str.strip`,
`str.split("=", 1)`, `s[:10]`, `"#"` prefix test, `"=" in s`) are modelled
structurally over `List Char`. -/

/-- The characters `str.strip()` removes: CPython's Unicode whitespace table
(`Py_UNICODE_ISSPACE`): U+0009-U+000D, U+001C-U+001F, U+0020, U+0085, U+00A0,
U+1680, U+2000-U+200A, U+2028, U+2029, U+202F, U+205F, U+3000. -/
def pyIsSpace (c : Char) : Bool :=
  (9 ≤ c.toNat && c.toNat ≤ 13) || (28 ≤ c.toNat && c.toNat ≤ 31) ||
    c.toNat == 32 || c.toNat == 133 || c.toNat == 160 || c.toNat == 5760 ||
    (8192 ≤ c.toNat && c.toNat ≤ 8202) || c.toNat == 8232 || c.toNat == 8233 ||
    c.toNat == 8239 || c.toNat == 8287 || c.toNat == 12288

/-- Strip leading and trailing whitespace from a character list. -/
def stripChars (cs : List Char) : List Char :=
  (((cs.dropWhile pyIsSpace).reverse.dropWhile pyIsSpace)).reverse

/-- Python `line.strip()`. -/
def pyStrip (s : String) : String :=
  ⟨stripChars s.data⟩

/-- Python `line.startswith("#")`: the first character is `'#'`. -/
def startsWithHash (s : String) : Bool :=
  match s.data with
  | [] => false
  | c :: _ => c == '#'

/-- Python `"=" in line`. -/
def containsEq (s : String) : Bool :=
  decide ('=' ∈ s.data)

/-- Python `s.split("=", 1)` on a character list: the part before the first
`'='`, and `some` of the part after it when an `'='` occurs. -/
def splitFirstEq : List Char → List Char × Option (List Char)
  | [] => ([], none)
  | c :: cs =>
    if c == '=' then ([], some cs)
    else
      let r := splitFirstEq cs
      (c :: r.1, r.2)

/-- Python `s[:10]` (safe when the string is shorter than `n`). -/
def pyTake (n : Nat) (s : String) : String :=
  ⟨s.data.take n⟩

/-! ### The process environment

`os.environ` is modelled as an association list; `envSet` is
`os.environ[key] = value` (the new binding shadows any earlier one), `envGet`
is `os.environ.get(key)`. -/

/-- The process environment: a map from variable names to values. -/
abbrev Env : Type := List (String × String)

/-- `os.environ[k] = v`: bind `k` to `v`, shadowing any prior binding. -/
def envSet (env : Env) (k v : String) : Env :=
  (k, v) :: env

/-- `os.environ.get k`: the value of the most recent binding of `k`. -/
def envGet (env : Env) (k : String) : Option String :=
  match List.find? (fun p => p.1 == k) env with
  | some p => some p.2
  | none => none

/-- The full CPython `os.environ[k] = v` on Linux, including its error paths:
argument conversion rejects an embedded null byte in the key or the value
(`ValueError: embedded null byte`, checked before the libc call), then glibc
`setenv` rejects an empty name (`OSError: [Errno 22] Invalid argument`);
otherwise the binding is installed.  On an error the environment is
unchanged. -/
def osEnvironSet (env : Env) (k v : String) : Except String Env :=
  if '\x00' ∈ k.data ∨ '\x00' ∈ v.data then .error "embedded null byte"
  else if k = "" then .error "[Errno 22] Invalid argument"
  else .ok (envSet env k v)

/-- Equality of loader-step results is decidable. -/
instance instDecEqExceptStringEnv : DecidableEq (Except String Env) := fun a b =>
  match a, b with
  | .ok x, .ok y =>
    if h : x = y then isTrue (by rw [h]) else isFalse (by simp [h])
  | .error x, .error y =>
    if h : x = y then isTrue (by rw [h]) else isFalse (by simp [h])
  | .ok _, .error _ => isFalse (fun hc => Except.noConfusion hc)
  | .error _, .ok _ => isFalse (fun hc => Except.noConfusion hc)

/-! ### The `.env` loader (source lines 7-14)

```python
try:
    with open(".env", "r") as f:
        for line in f:
            if line.strip() and not line.startswith("#") and "=" in line:
                key, value = line.strip().split("=", 1)
                os.environ[key] = value
except Exception as e:
    print(f"Warning: Could not load .env: ...")
```
-/

/-- One iteration of the `.env` loading loop on a single `line`: either the
(possibly unchanged) environment, or the message of the exception
`os.environ[key] = value` raised on this line. -/
def processLine (env : Env) (line : String) : Except String Env :=
  if pyStrip line != "" && !startsWithHash line && containsEq line then
    match splitFirstEq (pyStrip line).data with
    | (k, some v) => osEnvironSet env ⟨k⟩ ⟨v⟩
    | (_, none) => .ok env
  else .ok env

/-- The `.env` loading loop over the file's lines.  An exception on a line
propagates to the `except` around the loop: the loop stops, the lines set so
far keep their effect, and the caught message feeds the warning. -/
def loadDotenv (env : Env) : List String → Env × Option String
  | [] => (env, Option.none)
  | l :: ls =>
    match processLine env l with
    | .ok env2 => loadDotenv env2 ls
    | .error e => (env, some e)

/-! ### The request payload, headers and dispatch (source lines 21-42) -/

/-- The fixed endpoint URL (source line 21). -/
def invoke_url : String := "https://integrate.api.nvidia.com/v1/chat/completions"

/-- The compile-time streaming flag (source line 22: `stream = True`). -/
def stream : Bool := true

mutual
/-- Python/JSON values as constructed and received by the script. -/
inductive PyValue : Type where
  | str (s : String)
  | int (n : Int)
  | float (q : ℚ)
  | bool (b : Bool)
  | none
  | list (xs : PyList)
  | dict (xs : PyDict)

/-- A Python list of values. -/
inductive PyList : Type where
  | nil
  | cons (v : PyValue) (rest : PyList)

/-- A Python dict with string keys (insertion order preserved). -/
inductive PyDict : Type where
  | nil
  | cons (k : String) (v : PyValue) (rest : PyDict)
end

/-- Lookup of a key in a Python dict. -/
def PyDict.lookup (k : String) : PyDict → Option PyValue
  | .nil => Option.none
  | .cons k2 v rest => if k2 == k then some v else rest.lookup k

mutual
/-- Python `repr` of a value, as `print` of a parsed JSON document shows it. -/
def pyRepr : PyValue → String
  | .str s => "'" ++ s ++ "'"
  | .int n => toString n
  | .float q => toString q
  | .bool b => if b then "True" else "False"
  | .none => "None"
  | .list xs => "[" ++ pyReprList xs ++ "]"
  | .dict xs => "\x7b" ++ pyReprDict xs ++ "\x7d"

/-- Comma-separated `repr`s of the elements of a Python list. -/
def pyReprList : PyList → String
  | .nil => ""
  | .cons v .nil => pyRepr v
  | .cons v rest => pyRepr v ++ ", " ++ pyReprList rest

/-- Comma-separated `'key': value` items of a Python dict. -/
def pyReprDict : PyDict → String
  | .nil => ""
  | .cons k v .nil => "'" ++ k ++ "': " ++ pyRepr v
  | .cons k v rest => "'" ++ k ++ "': " ++ pyRepr v ++ ", " ++ pyReprDict rest
end

/-- The fixed request payload (source lines 29-37), with the streaming flag
mirrored into its `stream` field. -/
def payload (streamFlag : Bool) : PyDict :=
  .cons "model" (.str "moonshotai/kimi-k2.5")
    (.cons "messages"
      (.list (.cons (.dict (.cons "role" (.str "user")
        (.cons "content" (.str "Hello") .nil))) .nil))
      (.cons "max_tokens" (.int 16384)
        (.cons "temperature" (.float 1)
          (.cons "top_p" (.float 1)
            (.cons "stream" (.bool streamFlag)
              (.cons "chat_template_kwargs"
                (.dict (.cons "thinking" (.bool true) .nil)) .nil))))))

/-- The request headers (source lines 24-27). -/
def headers (apiKey : String) (streamFlag : Bool) : List (String × String) :=
  [("Authorization", "Bearer " ++ apiKey),
   ("Accept", if streamFlag then "text/event-stream" else "application/json")]

/-- Lookup of a header by name. -/
def headerGet (hs : List (String × String)) (k : String) : Option String :=
  match List.find? (fun p => p.1 == k) hs with
  | some p => some p.2
  | none => none

/-- The one HTTP request the script can dispatch (source line 42:
`requests.post(invoke_url, headers=headers, json=payload, stream=stream,
timeout=30)`). -/
structure Request : Type where
  method : String
  url : String
  reqHeaders : List (String × String)
  jsonBody : PyDict
  streamArg : Bool
  timeout : Nat

/-- The request built from a credential and the streaming flag. -/
def buildRequest (apiKey : String) (streamFlag : Bool) : Request :=
  { method := "POST"
    url := invoke_url
    reqHeaders := headers apiKey streamFlag
    jsonBody := payload streamFlag
    streamArg := streamFlag
    timeout := 30 }

/-! ### The world and the observable result -/

/-- What the `requests` library does for the one POST: either raise before a
response is available (connection error, timeout), or deliver a response with
a status code, a reason phrase, the body split into decoded lines (as
`iter_lines` yields them) and the result of parsing the whole body as JSON
(as `response.json()` returns or raises it). -/
inductive HttpOutcome : Type where
  | exn (msg : String)
  | response (status : Nat) (reason : String) (bodyLines : List String)
      (bodyJson : Except String PyValue)

/-- The inputs a run depends on: the `.env` file (or the message of the
failure to read it), the pre-existing process environment, and the network's
behaviour. -/
structure World : Type where
  dotenv : Except String (List String)
  env0 : Env
  http : HttpOutcome

/-- The observable behaviour of a run: the lines printed to stdout in order,
the process exit status, and the request dispatched (`none` when the POST was
never attempted). -/
structure ProgResult : Type where
  output : List String
  exitCode : Nat
  request : Option Request

/-- The environment after the `.env` loading step: an open failure leaves it
unchanged, and an exception inside the loop keeps the lines set before it. -/
def envAfter (w : World) : Env :=
  match w.dotenv with
  | .ok lines => (loadDotenv w.env0 lines).1
  | .error _ => w.env0

/-- The warning lines printed by the `.env` loading step: one warning when
the file cannot be opened, or when a line of the loop raised. -/
def dotenvWarnings (w : World) : List String :=
  match w.dotenv with
  | .ok lines =>
    match (loadDotenv w.env0 lines).2 with
    | some e => ["Warning: Could not load .env: " ++ e]
    | Option.none => []
  | .error e => ["Warning: Could not load .env: " ++ e]

/-- `api_key = os.environ.get("NVIDIA_API_KEY_KIMI")` after loading. -/
def resolveKey (w : World) : Option String :=
  envGet (envAfter w) "NVIDIA_API_KEY_KIMI"

/-- The message `requests.Response.raise_for_status` raises for a non-success
status. -/
def raiseForStatusMsg (status : Nat) (reason : String) : String :=
  if status < 500 then
    toString status ++ " Client Error: " ++ reason ++ " for url: " ++ invoke_url
  else
    toString status ++ " Server Error: " ++ reason ++ " for url: " ++ invoke_url

/-- The banner printed before the request is dispatched (source line 39). -/
def bannerLine (apiKey : String) : String :=
  "Testing Kimi with Python requests (Key: " ++ pyTake 10 apiKey ++ "...)..."

/-- The lines printed inside the `try` block after `requests.post` returns or
raises (source lines 42-54): `raise_for_status`, then either the
`iter_lines` loop printing each non-empty decoded line, or
`print(response.json())`; any exception is printed as `Error: ...`. -/
def renderOutcome (streamFlag : Bool) (h : HttpOutcome) : List String :=
  match h with
  | .exn m => ["Error: " ++ m]
  | .response status reason bodyLines bodyJson =>
    if 400 ≤ status ∧ status < 600 then
      ["Error: " ++ raiseForStatusMsg status reason]
    else if streamFlag then
      bodyLines.filter (fun l => l != "")
    else
      match bodyJson with
      | .ok v => [pyRepr v]
      | .error m => ["Error: " ++ m]

/-- The whole script, parameterised by the streaming flag: load `.env`,
resolve the credential (exit 1 if missing or empty, before any request),
print the banner, dispatch the single POST and render its outcome. -/
def runWith (streamFlag : Bool) (w : World) : ProgResult :=
  match resolveKey w with
  | Option.none =>
    { output := dotenvWarnings w ++ ["Error: Missing NVIDIA_API_KEY_KIMI in .env"]
      exitCode := 1
      request := Option.none }
  | some k =>
    if k = "" then
      { output := dotenvWarnings w ++ ["Error: Missing NVIDIA_API_KEY_KIMI in .env"]
        exitCode := 1
        request := Option.none }
    else
      { output := dotenvWarnings w ++ [bannerLine k] ++ renderOutcome streamFlag w.http
        exitCode := 0
        request := some (buildRequest k streamFlag) }

/-- The script as shipped, with `stream = True`. -/
def runProgram (w : World) : ProgResult :=
  runWith stream w

/-- The request raised an exception in the `try` block: `requests.post`
itself raised (network error, timeout), `raise_for_status` raised on a
non-success status, or — in non-streaming mode only — `response.json()`
raised on a malformed body. -/
def raisesDuring (streamFlag : Bool) (h : HttpOutcome) : Prop :=
  match h with
  | .exn _ => True
  | .response s _ _ j =>
    (400 ≤ s ∧ s < 600) ∨
      (streamFlag = false ∧ ¬(400 ≤ s ∧ s < 600) ∧ ∃ m, j = .error m)

/-- Modelled from the spec's wording of the loader (claim C3): trim
surrounding whitespace; skip if the TRIMMED result is empty or the TRIMMED
result's first character is `'#'`; otherwise split the trimmed line on the
first `'='` into key and value and set that variable.  The claim knows no
exception path, so every branch is `.ok`; it leaves a line with no `'='`
unspecified, taken here to leave the environment unchanged (the comparison
with `processLine` below does not exercise that case).  This definition
exists only to be compared with `processLine`, which is the code's
behaviour. -/
def processLineClaim (env : Env) (line : String) : Except String Env :=
  if pyStrip line = "" then .ok env
  else if startsWithHash (pyStrip line) then .ok env
  else
    match splitFirstEq (pyStrip line).data with
    | (k, some v) => .ok (envSet env ⟨k⟩ ⟨v⟩)
    | (_, none) => .ok env

/-- The parsed JSON document `\x7b"choices":[\x7b"message":\x7b"content":"hi"\x7d\x7d]\x7d`
used by the spec's non-streaming test. -/
def exampleChoices : PyValue :=
  .dict (.cons "choices"
    (.list (.cons
      (.dict (.cons "message"
        (.dict (.cons "content" (.str "hi") .nil)) .nil)) .nil)) .nil)

/-! ### Helper lemmas about the string primitives and the environment -/

/-- `splitFirstEq` really splits at the first `'='`: the key is the part
before the first `'='` (so it contains none) and the input is
`key ++ '=' :: value`. -/
theorem splitFirstEq_eq : ∀ {cs k v : List Char}, splitFirstEq cs = (k, some v) →
    cs = k ++ '=' :: v ∧ '=' ∉ k := by
  intro cs
  induction cs with
  | nil => intro k v h; simp [splitFirstEq] at h
  | cons c rest ih =>
    intro k v h
    by_cases hc : c = '='
    · subst hc
      simp [splitFirstEq] at h
      obtain ⟨hk, hv⟩ := h
      subst hk; subst hv
      simp
    · have hc' : (c == '=') = false := beq_false_of_ne hc
      simp only [splitFirstEq, hc', Bool.false_eq_true, if_false, Prod.mk.injEq] at h
      obtain ⟨hk, hv⟩ := h
      have hrest : splitFirstEq rest = ((splitFirstEq rest).1, some v) := by
        rw [← hv]
      obtain ⟨h3, h4⟩ := ih hrest
      subst hk
      constructor
      · simp only [List.cons_append]
        exact congrArg (List.cons c) h3
      · intro hmem
        rcases List.mem_cons.mp hmem with h5 | h5
        · exact hc h5.symm
        · exact h4 h5

/-- Stripping whitespace only removes characters: membership is preserved. -/
theorem mem_stripChars {c : Char} {cs : List Char} (h : c ∈ stripChars cs) : c ∈ cs := by
  unfold stripChars at h
  rw [List.mem_reverse] at h
  have h2 := (List.dropWhile_sublist pyIsSpace).mem h
  rw [List.mem_reverse] at h2
  exact (List.dropWhile_sublist pyIsSpace).mem h2

/-- A fresh binding is what `envGet` returns for its key. -/
theorem envGet_envSet_self (env : Env) (k v : String) :
    envGet (envSet env k v) k = some v := by
  simp [envGet, envSet, List.find?]

/-- A fresh binding leaves every other key's lookup unchanged. -/
theorem envGet_envSet_ne (env : Env) (k v k2 : String) (h : k2 ≠ k) :
    envGet (envSet env k v) k2 = envGet env k2 := by
  have hb : (k == k2) = false := beq_false_of_ne (Ne.symm h)
  simp [envGet, envSet, List.find?, hb]

/-- Two banners agree only when the 10-character credential prefixes agree. -/
theorem pyTake_eq_of_bannerLine_eq {a b : String} (h : bannerLine a = bannerLine b) :
    pyTake 10 a = pyTake 10 b := by
  unfold bannerLine at h
  have hd := congrArg String.data h
  simp only [String.data_append, List.append_assoc] at hd
  have h1 := List.append_cancel_left hd
  have h2 := List.append_cancel_right h1
  exact String.ext h2

/-- Python's slice `s[:10]` is the whole string when it is short enough. -/
theorem pyTake_of_le {k : String} (h : k.data.length ≤ 10) : pyTake 10 k = k := by
  unfold pyTake
  rw [List.take_of_length_le h]

/-! ### The claims -/

/-- C1: whenever `NVIDIA_API_KEY_KIMI` is unset or empty after the `.env`
loading step, the program prints an error naming the missing variable,
terminates with exit status 1, and never dispatches the HTTP POST. -/
theorem missing_credential_exits_one_without_request (b : Bool) (w : World)
    (h : resolveKey w = Option.none ∨ resolveKey w = some "") :
    (runWith b w).exitCode = 1 ∧ (runWith b w).request = Option.none ∧
      "Error: Missing NVIDIA_API_KEY_KIMI in .env" ∈ (runWith b w).output := by
  rcases h with h | h <;> simp [runWith, h]

/-- C1 witness: a `.env` file that sets the variable to the empty string. -/
theorem missing_credential_exits_one_without_request_witness :
    (runWith true ⟨.ok ["NVIDIA_API_KEY_KIMI="], [], .exn "boom"⟩).exitCode = 1 ∧
      (runWith true ⟨.ok ["NVIDIA_API_KEY_KIMI="], [], .exn "boom"⟩).request = Option.none ∧
      "Error: Missing NVIDIA_API_KEY_KIMI in .env" ∈
        (runWith true ⟨.ok ["NVIDIA_API_KEY_KIMI="], [], .exn "boom"⟩).output :=
  missing_credential_exits_one_without_request true
    ⟨.ok ["NVIDIA_API_KEY_KIMI="], [], .exn "boom"⟩ (Or.inr (by decide))

/-- C3 counterexample: the claim says the `'#'`-comment test is applied to
the TRIMMED line, but `line.startswith("#")` in the code tests the RAW line;
on the line `"  #key=value"` (leading spaces before `'#'`) the code sets the
variable `#key` while the claim's reading skips the line.  A second
divergence: on `"=value"` the claim's reading sets the empty-named variable,
while the code's `os.environ[""] = "value"` raises `OSError [Errno 22]`. -/
theorem loader_hash_check_differs_from_claim_counterexample :
    processLine [] "  #key=value" = .ok [("#key", "value")] ∧
    processLineClaim [] "  #key=value" = .ok [] ∧
    processLine [] "  #key=value" ≠ processLineClaim [] "  #key=value" ∧
    processLine [] "=value" = .error "[Errno 22] Invalid argument" ∧
    processLineClaim [] "=value" = .ok [("", "value")] ∧
    processLine [] "=value" ≠ processLineClaim [] "=value" :=
  ⟨by decide, by decide, by decide, by decide, by decide, by decide⟩

/-- C3 amended: for each line the loader trims surrounding whitespace and
skips the line — environment unchanged, nothing raised — when the trimmed
result is empty, when the RAW (untrimmed) line's first character is `'#'`,
or when the line has no `'='`; otherwise it splits the trimmed line at its
first `'='` into a key (containing no `'='`) and a value, and performs
`os.environ[key] = value`: an embedded null byte in key or value raises
`ValueError`, an empty key raises `OSError [Errno 22]` — either exception
stops the loop, keeping earlier lines' effects, and becomes the caught
warning — and otherwise the variable is set, overwriting any prior value and
touching no other variable. -/
theorem loader_line_semantics (env : Env) (line : String) :
    (pyStrip line = "" ∨ startsWithHash line = true ∨ containsEq line = false →
      processLine env line = .ok env) ∧
    (∀ k v : String,
      splitFirstEq (pyStrip line).data = (k.data, some v.data) →
      pyStrip line ≠ "" → startsWithHash line = false →
      (pyStrip line).data = k.data ++ '=' :: v.data ∧
      '=' ∉ k.data ∧
      containsEq line = true ∧
      ('\x00' ∈ k.data ∨ '\x00' ∈ v.data →
        processLine env line = .error "embedded null byte") ∧
      (k = "" → '\x00' ∉ v.data →
        processLine env line = .error "[Errno 22] Invalid argument") ∧
      (k ≠ "" → '\x00' ∉ k.data → '\x00' ∉ v.data →
        processLine env line = .ok (envSet env k v) ∧
        envGet (envSet env k v) k = some v ∧
        (∀ k2, k2 ≠ k → envGet (envSet env k v) k2 = envGet env k2))) ∧
    (∀ e ls, processLine env line = .error e →
      loadDotenv env (line :: ls) = (env, some e)) ∧
    (∀ env2 ls, processLine env line = .ok env2 →
      loadDotenv env (line :: ls) = loadDotenv env2 ls) := by
  refine ⟨?_, ?_, ?_, ?_⟩
  · rintro (h | h | h) <;> simp [processLine, h]
  · intro k v hsplit hne hh
    obtain ⟨hsp, hnk⟩ := splitFirstEq_eq hsplit
    have hceq : containsEq line = true := by
      have hmem : '=' ∈ (pyStrip line).data := by rw [hsp]; simp
      simpa [containsEq] using mem_stripChars hmem
    have hbne : (pyStrip line != "") = true := by simpa using hne
    have hplE : processLine env line = osEnvironSet env k v := by
      simp [processLine, hbne, hh, hceq, hsplit]
    refine ⟨hsp, hnk, hceq, ?_, ?_, ?_⟩
    · intro hnull
      rw [hplE]
      simp [osEnvironSet, hnull]
    · intro hk0 hv0
      subst hk0
      rw [hplE]
      simp [osEnvironSet, hv0]
    · intro hkne hk0 hv0
      rw [hplE]
      have hno : ¬('\x00' ∈ k.data ∨ '\x00' ∈ v.data) := by simp [hk0, hv0]
      exact ⟨by simp [osEnvironSet, hno, hkne], envGet_envSet_self env k v,
        fun k2 hk2 => envGet_envSet_ne env k v k2 hk2⟩
  · intro e ls hpe
    simp [loadDotenv, hpe]
  · intro env2 ls hpe
    simp [loadDotenv, hpe]

/-- C3 witness: on `" A=b=c "` the loader binds `A` to `b=c` (split at the
FIRST `'='`), shadowing the old value and leaving other keys alone; a
whitespace-only line and a raw `'#'` line are skipped; `"=value"` raises
`OSError [Errno 22]`, which aborts the loop before later lines and becomes
the warning message. -/
theorem loader_line_semantics_witness :
    processLine [("A", "old")] " A=b=c " = .ok (envSet [("A", "old")] "A" "b=c") ∧
    envGet (envSet [("A", "old")] "A" "b=c") "A" = some "b=c" ∧
    envGet (envSet [("A", "old")] "A" "b=c") "B" = envGet [("A", "old")] "B" ∧
    processLine [] "   " = .ok [] ∧
    processLine [] "#comment=1" = .ok [] ∧
    processLine [] "=value" = .error "[Errno 22] Invalid argument" ∧
    loadDotenv [] ["=value", "NVIDIA_API_KEY_KIMI=abc"] =
      ([], some "[Errno 22] Invalid argument") := by
  obtain ⟨hsp, hnk, hceq, hnull, he, hset⟩ :=
    (loader_line_semantics [("A", "old")] " A=b=c ").2.1 "A" "b=c"
      (by decide) (by decide) (by decide)
  obtain ⟨hs1, hs2, hs3⟩ := hset (by decide) (by decide) (by decide)
  have hskip1 := (loader_line_semantics ([] : Env) "   ").1 (Or.inl (by decide))
  have hskip2 := (loader_line_semantics ([] : Env) "#comment=1").1
    (Or.inr (Or.inl (by decide)))
  obtain ⟨-, -, -, -, herr, -⟩ :=
    (loader_line_semantics ([] : Env) "=value").2.1 "" "value"
      (by decide) (by decide) (by decide)
  have herr2 := herr (by decide) (by decide)
  have habort := (loader_line_semantics ([] : Env) "=value").2.2.1
    "[Errno 22] Invalid argument" ["NVIDIA_API_KEY_KIMI=abc"] herr2
  exact ⟨hs1, hs2, hs3 "B" (by decide), hskip1, hskip2, herr2, habort⟩

/-- C9: a line that is non-empty after trimming, does not begin with `'#'`,
but contains no `'='` is silently skipped — the loader is total and leaves
the environment unchanged on it. -/
theorem loader_skips_lines_without_eq (env : Env) (line : String)
    (h1 : pyStrip line ≠ "") (h2 : startsWithHash line = false)
    (h3 : containsEq line = false) :
    processLine env line = .ok env := by
  simp [processLine, h3]

/-- C9 witness: the bare word `"abc"` leaves a one-entry environment as is,
raising nothing. -/
theorem loader_skips_lines_without_eq_witness :
    processLine [("X", "1")] "abc" = .ok [("X", "1")] :=
  loader_skips_lines_without_eq [("X", "1")] "abc" (by decide) (by decide) (by decide)

/-- C2: every exception raised during dispatch or rendering (network error,
timeout via `exn`; non-success status via `raise_for_status`; malformed JSON
via `response.json()` in non-streaming mode) is caught at the top level,
printed as the last output line with an `Error: ` prefix, and the program
exits with status 0. -/
theorem caught_request_error_prints_and_exits_zero (b : Bool) (w : World) (k : String)
    (hk : resolveKey w = some k) (hne : k ≠ "") (hx : raisesDuring b w.http) :
    (runWith b w).exitCode = 0 ∧
      ∃ m, (runWith b w).output.getLast? = some ("Error: " ++ m) := by
  refine ⟨by simp [runWith, hk, hne], ?_⟩
  cases hh : w.http with
  | exn m =>
    exact ⟨m, by simp [runWith, hk, hne, hh, renderOutcome, List.getLast?_concat]⟩
  | response s reason bodyLines bodyJson =>
    rw [hh] at hx
    simp only [raisesDuring] at hx
    rcases hx with hs | ⟨hb, hs, m, hj⟩
    · exact ⟨raiseForStatusMsg s reason,
        by simp [runWith, hk, hne, hh, renderOutcome, hs, List.getLast?_concat]⟩
    · subst hb
      subst hj
      exact ⟨m, by simp [runWith, hk, hne, hh, renderOutcome, hs, List.getLast?_concat]⟩

/-- C2 witness: a network failure `"boom"` is printed as `Error: boom` and
the exit status is 0. -/
theorem caught_request_error_prints_and_exits_zero_witness :
    (runWith true ⟨.ok ["NVIDIA_API_KEY_KIMI=abc123"], [], .exn "boom"⟩).exitCode = 0 ∧
      (runWith true ⟨.ok ["NVIDIA_API_KEY_KIMI=abc123"], [],
        .exn "boom"⟩).output.getLast? = some ("Error: " ++ "boom") :=
  ⟨(caught_request_error_prints_and_exits_zero true
      ⟨.ok ["NVIDIA_API_KEY_KIMI=abc123"], [], .exn "boom"⟩ "abc123"
      (by decide) (by decide) trivial).1,
   by decide⟩

/-- C4: in streaming mode (the shipped configuration), on a success status
the renderer prints exactly the non-empty body lines, in arrival order, after
the pre-request output, and the run ends with exit status 0. -/
theorem streaming_prints_nonempty_lines_in_order (w : World) (k : String)
    (s : Nat) (reason : String) (bodyLines : List String)
    (bodyJson : Except String PyValue)
    (hk : resolveKey w = some k) (hne : k ≠ "")
    (hh : w.http = .response s reason bodyLines bodyJson)
    (hs : ¬(400 ≤ s ∧ s < 600)) :
    (runProgram w).output =
      dotenvWarnings w ++ [bannerLine k] ++ bodyLines.filter (fun l => l != "") ∧
    (runProgram w).exitCode = 0 := by
  constructor
  · simp [runProgram, stream, runWith, hk, hne, hh, renderOutcome, hs]
  · simp [runProgram, stream, runWith, hk, hne]

/-- C4 witness: the body lines `data: \x7b"id":1\x7d`, an empty keep-alive line,
then `data: \x7b"id":2\x7d` are printed as exactly the two data lines, in order,
with exit status 0. -/
theorem streaming_prints_nonempty_lines_in_order_witness :
    (runProgram ⟨.ok ["NVIDIA_API_KEY_KIMI=abc123"], [],
        .response 200 "OK" ["data: \x7b\"id\":1\x7d", "", "data: \x7b\"id\":2\x7d"]
          (.error "")⟩).output =
      [bannerLine "abc123", "data: \x7b\"id\":1\x7d", "data: \x7b\"id\":2\x7d"] ∧
    (runProgram ⟨.ok ["NVIDIA_API_KEY_KIMI=abc123"], [],
        .response 200 "OK" ["data: \x7b\"id\":1\x7d", "", "data: \x7b\"id\":2\x7d"]
          (.error "")⟩).exitCode = 0 := by
  obtain ⟨h1, h2⟩ := streaming_prints_nonempty_lines_in_order
    ⟨.ok ["NVIDIA_API_KEY_KIMI=abc123"], [],
      .response 200 "OK" ["data: \x7b\"id\":1\x7d", "", "data: \x7b\"id\":2\x7d"]
        (.error "")⟩
    "abc123" 200 "OK" ["data: \x7b\"id\":1\x7d", "", "data: \x7b\"id\":2\x7d"]
    (.error "") (by decide) (by decide) rfl (by decide)
  refine ⟨?_, h2⟩
  rw [h1]
  decide

/-- C5: a non-success HTTP status makes `raise_for_status` raise, so the run
prints the banner and one `Error: ` line and nothing else — no response body
content — and exits with status 0 like any transport failure. -/
theorem error_status_prints_error_and_no_body (w : World) (k : String)
    (s : Nat) (reason : String) (bodyLines : List String)
    (bodyJson : Except String PyValue)
    (hk : resolveKey w = some k) (hne : k ≠ "")
    (hh : w.http = .response s reason bodyLines bodyJson)
    (hs : 400 ≤ s ∧ s < 600) :
    (runProgram w).output =
      dotenvWarnings w ++ [bannerLine k, "Error: " ++ raiseForStatusMsg s reason] ∧
    (runProgram w).exitCode = 0 := by
  constructor
  · simp [runProgram, stream, runWith, hk, hne, hh, renderOutcome, hs]
  · simp [runProgram, stream, runWith, hk, hne]

/-- C5 witness: a 401 response whose body would be `data: secret` prints only
the banner and the `Error: ` line. -/
theorem error_status_prints_error_and_no_body_witness :
    (runProgram ⟨.ok ["NVIDIA_API_KEY_KIMI=abc123"], [],
        .response 401 "Unauthorized" ["data: secret"] (.ok (.str "secret"))⟩).output =
      [bannerLine "abc123", "Error: " ++ raiseForStatusMsg 401 "Unauthorized"] ∧
    (runProgram ⟨.ok ["NVIDIA_API_KEY_KIMI=abc123"], [],
        .response 401 "Unauthorized" ["data: secret"] (.ok (.str "secret"))⟩).exitCode = 0 := by
  obtain ⟨h1, h2⟩ := error_status_prints_error_and_no_body
    ⟨.ok ["NVIDIA_API_KEY_KIMI=abc123"], [],
      .response 401 "Unauthorized" ["data: secret"] (.ok (.str "secret"))⟩
    "abc123" 401 "Unauthorized" ["data: secret"] (.ok (.str "secret"))
    (by decide) (by decide) rfl (by decide)
  exact ⟨h1, h2⟩

/-- C6: when the credential resolves, the run dispatches exactly one request:
a POST to the fixed endpoint with `Authorization: Bearer <credential>`, an
`Accept` header selected by the streaming flag, the fixed JSON payload whose
`stream` field mirrors that flag, the flag passed to the library, and a
timeout of 30. -/
theorem dispatch_request_shape (b : Bool) (w : World) (k : String)
    (hk : resolveKey w = some k) (hne : k ≠ "") :
    (runWith b w).request = some (buildRequest k b) ∧
    (buildRequest k b).method = "POST" ∧
    (buildRequest k b).url = invoke_url ∧
    headerGet (buildRequest k b).reqHeaders "Authorization" = some ("Bearer " ++ k) ∧
    headerGet (buildRequest k b).reqHeaders "Accept" =
      some (if b then "text/event-stream" else "application/json") ∧
    PyDict.lookup "stream" (buildRequest k b).jsonBody = some (.bool b) ∧
    (buildRequest k b).streamArg = b ∧
    (buildRequest k b).timeout = 30 := by
  exact ⟨by simp [runWith, hk, hne], rfl, rfl, rfl, rfl, rfl, rfl, rfl⟩

/-- C6 witness: the request shape at the shipped flag and a concrete key. -/
theorem dispatch_request_shape_witness :
    (runWith true ⟨.ok ["NVIDIA_API_KEY_KIMI=abc123"], [], .exn "boom"⟩).request =
      some (buildRequest "abc123" true) ∧
    (buildRequest "abc123" true).method = "POST" ∧
    (buildRequest "abc123" true).url = invoke_url ∧
    headerGet (buildRequest "abc123" true).reqHeaders "Authorization" =
      some ("Bearer " ++ "abc123") ∧
    headerGet (buildRequest "abc123" true).reqHeaders "Accept" =
      some (if true then "text/event-stream" else "application/json") ∧
    PyDict.lookup "stream" (buildRequest "abc123" true).jsonBody = some (.bool true) ∧
    (buildRequest "abc123" true).streamArg = true ∧
    (buildRequest "abc123" true).timeout = 30 :=
  dispatch_request_shape true ⟨.ok ["NVIDIA_API_KEY_KIMI=abc123"], [], .exn "boom"⟩
    "abc123" (by decide) (by decide)

/-- C7: when the `.env` file cannot be read, the run prints the warning
containing the error and then behaves exactly like a run with an empty
`.env` file: same remaining output, same exit status, same dispatched
request — the failure is non-fatal. -/
theorem dotenv_read_failure_warns_and_continues (b : Bool) (e : String)
    (d : Env) (h : HttpOutcome) :
    (runWith b ⟨.error e, d, h⟩).output =
      ("Warning: Could not load .env: " ++ e) :: (runWith b ⟨.ok [], d, h⟩).output ∧
    (runWith b ⟨.error e, d, h⟩).exitCode = (runWith b ⟨.ok [], d, h⟩).exitCode ∧
    (runWith b ⟨.error e, d, h⟩).request = (runWith b ⟨.ok [], d, h⟩).request := by
  cases hk : envGet d "NVIDIA_API_KEY_KIMI" with
  | none =>
    simp [runWith, resolveKey, envAfter, loadDotenv, dotenvWarnings, List.foldl, hk]
  | some k =>
    by_cases hke : k = "" <;>
      simp [runWith, resolveKey, envAfter, loadDotenv, dotenvWarnings, List.foldl, hk, hke]

/-- C8: in non-streaming mode, on a success status whose body parses as the
JSON value `v`, the renderer prints the parsed structure `v` (and only it)
after the pre-request output, with exit status 0. -/
theorem nonstreaming_prints_parsed_json (w : World) (k : String)
    (s : Nat) (reason : String) (bodyLines : List String) (v : PyValue)
    (hk : resolveKey w = some k) (hne : k ≠ "")
    (hh : w.http = .response s reason bodyLines (.ok v))
    (hs : ¬(400 ≤ s ∧ s < 600)) :
    (runWith false w).output = dotenvWarnings w ++ [bannerLine k, pyRepr v] ∧
    (runWith false w).exitCode = 0 := by
  constructor
  · simp [runWith, hk, hne, hh, renderOutcome, hs]
  · simp [runWith, hk, hne]

/-- C8 witness: the parsed body `\x7b"choices":[\x7b"message":\x7b"content":"hi"\x7d\x7d]\x7d`
is printed as Python shows the parsed structure. -/
theorem nonstreaming_prints_parsed_json_witness :
    (runWith false ⟨.ok ["NVIDIA_API_KEY_KIMI=abc123"], [],
        .response 200 "OK" [] (.ok exampleChoices)⟩).output =
      [bannerLine "abc123",
       "\x7b'choices': [\x7b'message': \x7b'content': 'hi'\x7d\x7d]\x7d"] ∧
    (runWith false ⟨.ok ["NVIDIA_API_KEY_KIMI=abc123"], [],
        .response 200 "OK" [] (.ok exampleChoices)⟩).exitCode = 0 := by
  obtain ⟨h1, h2⟩ := nonstreaming_prints_parsed_json
    ⟨.ok ["NVIDIA_API_KEY_KIMI=abc123"], [], .response 200 "OK" [] (.ok exampleChoices)⟩
    "abc123" 200 "OK" [] exampleChoices (by decide) (by decide) rfl (by decide)
  refine ⟨?_, h2⟩
  rw [h1]
  rfl

/-- C10: the banner printed before the request is dispatched embeds the first
10 characters of the credential, so the pre-dispatch output is NOT
independent of the secret: two runs whose credentials differ within their
first 10 characters print different first lines; the slice is total and is
the whole credential when it is shorter than 10 characters. -/
theorem banner_leaks_credential_take10 (k1 k2 : String) (h : HttpOutcome)
    (h1 : k1 ≠ "") (h2 : k2 ≠ "") (hd : pyTake 10 k1 ≠ pyTake 10 k2) :
    (runProgram ⟨.ok [], [("NVIDIA_API_KEY_KIMI", k1)], h⟩).output.head? =
      some (bannerLine k1) ∧
    (runProgram ⟨.ok [], [("NVIDIA_API_KEY_KIMI", k1)], h⟩).request =
      some (buildRequest k1 stream) ∧
    (runProgram ⟨.ok [], [("NVIDIA_API_KEY_KIMI", k1)], h⟩).output.head? ≠
      (runProgram ⟨.ok [], [("NVIDIA_API_KEY_KIMI", k2)], h⟩).output.head? ∧
    (∀ k : String, k.data.length ≤ 10 → pyTake 10 k = k) := by
  have hr1 : resolveKey ⟨.ok [], [("NVIDIA_API_KEY_KIMI", k1)], h⟩ = some k1 := rfl
  have hr2 : resolveKey ⟨.ok [], [("NVIDIA_API_KEY_KIMI", k2)], h⟩ = some k2 := rfl
  have hb : bannerLine k1 ≠ bannerLine k2 :=
    fun hEq => hd (pyTake_eq_of_bannerLine_eq hEq)
  refine ⟨?_, ?_, ?_, fun k hk => pyTake_of_le hk⟩
  · simp [runProgram, runWith, hr1, h1, dotenvWarnings, loadDotenv]
  · simp [runProgram, runWith, hr1, h1]
  · simp [runProgram, runWith, hr1, hr2, h1, h2, dotenvWarnings, loadDotenv, hb]

/-- C10 witness: credentials `abcdefghijk` and `zbcdefghij` differ within
their first 10 characters, and the two runs' first printed lines differ. -/
theorem banner_leaks_credential_take10_witness :
    (runProgram ⟨.ok [], [("NVIDIA_API_KEY_KIMI", "abcdefghijk")], .exn "x"⟩).output.head? =
      some (bannerLine "abcdefghijk") ∧
    (runProgram ⟨.ok [], [("NVIDIA_API_KEY_KIMI", "abcdefghijk")], .exn "x"⟩).request =
      some (buildRequest "abcdefghijk" stream) ∧
    (runProgram ⟨.ok [], [("NVIDIA_API_KEY_KIMI", "abcdefghijk")], .exn "x"⟩).output.head? ≠
      (runProgram ⟨.ok [], [("NVIDIA_API_KEY_KIMI", "zbcdefghij")], .exn "x"⟩).output.head? ∧
    (∀ k : String, k.data.length ≤ 10 → pyTake 10 k = k) :=
  banner_leaks_credential_take10 "abcdefghijk" "zbcdefghij" (.exn "x")
    (by decide) (by decide) (by decide)
